import Mathlib

/-!
BB-DOI-Monitor: verification of the data pipeline.

Shallow embedding of the DOI (Days of Inventory) pipeline of `src/main.py`:
city normalization (`Series.replace` with a dict), record preprocessing
(`preprocess_data`), windowed base building (`create_doi_base`), the DOI
computation (`calculate_doi`) and the priority-driven filter chain.

Modelling conventions:
* dataframe rows are records in a `List`; a groupby is modelled as the list of
  distinct keys (first-occurrence order; pandas sorts groups, but no property
  below depends on row order) with aggregated values;
* calendar dates are `ℤ` (days); `pd.Timestamp` arithmetic is integer
  arithmetic, and the possibly missing `max()` of a date column is an
  `Option ℤ` (`none` plays the role of `NaT`; any comparison against `NaT`
  is false, so a `none` max date filters everything out);
* numeric cell values are `ℚ` (exact arithmetic in place of float64);
* a nullable string cell (`sku_description`) is an `Option String`; pandas
  `groupby` drops rows whose grouping key is null, `agg "first"` takes the
  first non-null value of the group, and `combine_first` coalesces.
-/

namespace DOI

/-- The `SALES_CITY_MAPPING` dict of `src/main.py`. -/
def SALES_CITY_MAPPING : List (String × String) :=
  [("Agra", "Agra"),
   ("Ahmedabad Rural", "Ahmedabad-Gandhinagar"),
   ("Ahmedabad-Gandhinagar", "Ahmedabad-Gandhinagar"),
   ("Allahabad", "Allahabad"),
   ("Bangalore", "Bangalore"),
   ("Bangalore Rural", "Bangalore"),
   ("Bhopal", "Bhopal"),
   ("Bhubaneshwar-Cuttack", "Bhubaneshwar-Cuttack"),
   ("Bhubaneswar Rural", "Bhubaneshwar-Cuttack"),
   ("Chandigarh Tricity", "Chandigarh Tricity"),
   ("Chennai", "Chennai"),
   ("Chennai Rural", "Chennai"),
   ("Coimbatore", "Coimbatore"),
   ("DehraDun", "DehraDun"),
   ("Gurgaon", "Delhi"),
   ("Gurugram Rural", "Delhi"),
   ("Guwahati", "Guwahati"),
   ("Hyderabad", "Hyderabad"),
   ("Hyderabad Rural", "Hyderabad"),
   ("Indore", "Indore"),
   ("Kochi", "Kochi"),
   ("Kochi Rural", "Kochi"),
   ("Kolkata", "Kolkata"),
   ("Kolkata Rural", "Kolkata"),
   ("Kozhikode", "Kozhikode"),
   ("Lucknow Rural", "Lucknow-Kanpur"),
   ("Lucknow-Kanpur", "Lucknow-Kanpur"),
   ("Mangaluru", "Mangaluru"),
   ("Mumbai", "Mumbai"),
   ("Mumbai Rural", "Mumbai"),
   ("Mysore", "Mysore"),
   ("Nagpur", "Nagpur"),
   ("Nashik", "Nashik"),
   ("Noida", "Noida"),
   ("Noida Rural", "Noida"),
   ("Patna", "Patna"),
   ("Patna Rural", "Patna"),
   ("Pune", "Pune"),
   ("Pune Rural", "Pune"),
   ("Raipur", "Raipur"),
   ("Ranchi", "Ranchi"),
   ("Ranchi Rural", "Ranchi"),
   ("Surat", "Surat"),
   ("Thiruvananthapuram", "Thiruvananthapuram"),
   ("Vadodara", "Vadodara"),
   ("Vijayawada-Guntur", "Vijayawada-Guntur"),
   ("Visakhapatnam", "Visakhapatnam"),
   ("Vizag Rural", "Visakhapatnam")]

/-- The `INVENTORY_CITY_MAPPING` dict of `src/main.py`. -/
def INVENTORY_CITY_MAPPING : List (String × String) :=
  [("Agra", "Agra"),
   ("Ahmedabad-Gandhinagar", "Ahmedabad-Gandhinagar"),
   ("Allahabad", "Allahabad"),
   ("Bangalore", "Bangalore"),
   ("Bhopal", "Bhopal"),
   ("Bhubaneshwar-Cuttack", "Bhubaneshwar-Cuttack"),
   ("Chandigarh Tricity", "Chandigarh Tricity"),
   ("Chennai", "Chennai"),
   ("Coimbatore", "Coimbatore"),
   ("DehraDun", "DehraDun"),
   ("Delhi", "Delhi"),
   ("Gurgaon", "Delhi"),
   ("Guwahati", "Guwahati"),
   ("Gwalior", "Gwalior"),
   ("Hyderabad", "Hyderabad"),
   ("Indore", "Indore"),
   ("Kochi", "Kochi"),
   ("Kolkata", "Kolkata"),
   ("Kozhikode", "Kozhikode"),
   ("Lucknow-Kanpur", "Lucknow-Kanpur"),
   ("Ludhiana", "Ludhiana"),
   ("Mangaluru", "Mangaluru"),
   ("Mumbai", "Mumbai"),
   ("Mysore", "Mysore"),
   ("Nagpur", "Nagpur"),
   ("Nashik", "Nashik"),
   ("Noida", "Noida"),
   ("Patna", "Patna"),
   ("Pune", "Pune"),
   ("Raipur", "Raipur"),
   ("Ranchi", "Ranchi"),
   ("Surat", "Surat"),
   ("Thiruvananthapuram", "Thiruvananthapuram"),
   ("Vadodara", "Vadodara"),
   ("Vijayawada-Guntur", "Vijayawada-Guntur"),
   ("Visakhapatnam", "Visakhapatnam")]

/-- `Series.replace(mapping)` applied to one city cell: the canonical name when
the raw name has an entry in the mapping, the raw name itself otherwise. -/
def normalize_city (mapping : List (String × String)) (c : String) : String :=
  (mapping.lookup c).getD c

/-- A row of the raw `Sales` sheet (`date_range` parsed to a calendar day). -/
structure RawSalesRow where
  date_range : ℤ
  source_city_name : String
  source_sku_id : String
  sku_description : Option String
  total_quantity : ℚ
  deriving DecidableEq, Repr

/-- A row of the raw `Inventory` sheet. -/
structure RawInventoryRow where
  city : String
  sku_id : String
  sku_description : Option String
  soh : ℚ
  deriving DecidableEq, Repr

/-- A row of the normalized sales table (`sales_processed`). -/
structure SalesRow where
  date : ℤ
  city : String
  sku_id : String
  sku_description : Option String
  sales_qty : ℚ
  deriving DecidableEq, Repr

/-- A row of the normalized inventory table (`inventory_processed`). -/
structure InventoryRow where
  city : String
  sku_id : String
  sku_description : Option String
  inventory_units : ℚ
  deriving DecidableEq, Repr

/-- A row of `sales_n_days`: windowed sales grouped by `(sku_id, city)`. -/
structure SalesAgg where
  sku_id : String
  city : String
  sales_qty : ℚ
  sku_description : Option String
  deriving DecidableEq, Repr

/-- A row of the base table returned by `create_doi_base`. -/
structure BaseRow where
  city : String
  sku_id : String
  sku_description : Option String
  inventory_units : ℚ
  sales_qty : ℚ
  deriving DecidableEq, Repr

/-- A row of a result view: grouping keys that are not part of the active view
are `none` (`sku_description` is also `none` for a null description key in a
view that does not group on it). -/
structure ResultRow where
  sku_description : Option String
  city : Option String
  sales_qty : ℚ
  inventory_units : ℚ
  doi : ℤ
  deriving DecidableEq, Repr

/-- Sales half of `preprocess_data`: replace city names through
`SALES_CITY_MAPPING`, then group by `(date_range, city, sku_id,
sku_description)` summing `total_quantity`.  pandas `groupby` drops rows whose
`sku_description` key is null. -/
def preprocess_sales (raw : List RawSalesRow) : List SalesRow :=
  let replaced := raw.map (fun r =>
    { r with source_city_name := normalize_city SALES_CITY_MAPPING r.source_city_name })
  let kept := replaced.filter (fun r => r.sku_description.isSome)
  let keys := (kept.map (fun r =>
    (r.date_range, r.source_city_name, r.source_sku_id, r.sku_description))).dedup
  keys.map (fun k =>
    { date := k.1, city := k.2.1, sku_id := k.2.2.1, sku_description := k.2.2.2,
      sales_qty := ((kept.filter (fun r =>
        decide ((r.date_range, r.source_city_name, r.source_sku_id, r.sku_description) = k))).map
          (fun r => r.total_quantity)).sum })

/-- Inventory half of `preprocess_data`: replace city names through
`INVENTORY_CITY_MAPPING`, then group by `(city, sku_id, sku_description)`
summing `soh`. -/
def preprocess_inventory (raw : List RawInventoryRow) : List InventoryRow :=
  let replaced := raw.map (fun r =>
    { r with city := normalize_city INVENTORY_CITY_MAPPING r.city })
  let kept := replaced.filter (fun r => r.sku_description.isSome)
  let keys := (kept.map (fun r => (r.city, r.sku_id, r.sku_description))).dedup
  keys.map (fun k =>
    { city := k.1, sku_id := k.2.1, sku_description := k.2.2,
      inventory_units := ((kept.filter (fun r =>
        decide ((r.city, r.sku_id, r.sku_description) = k))).map (fun r => r.soh)).sum })

/-- `sales_df["date_range"].max()`: `none` is pandas `NaT` (empty column). -/
def maxDate (sales : List SalesRow) : Option ℤ :=
  (sales.map (fun r => r.date)).max?

/-- The window filter of `create_doi_base`:
`start_date = max_date - (n_days - 1)` and rows are kept when
`start_date ≤ date_range ≤ max_date`.  When `max_date` is `NaT` every
comparison is false and nothing is kept. -/
def windowFilter (sales : List SalesRow) (n_days : ℕ) : List SalesRow :=
  match maxDate sales with
  | none => []
  | some m =>
      sales.filter (fun r => decide (m - ((n_days : ℤ) - 1) ≤ r.date ∧ r.date ≤ m))

/-- The `(sku_id, city)` key of a normalized (or windowed) sales row. -/
def salesKey (r : SalesRow) : String × String := (r.sku_id, r.city)

/-- The `(sku_id, city)` key of a normalized inventory row. -/
def invKey (i : InventoryRow) : String × String := (i.sku_id, i.city)

/-- The `(sku_id, city)` key of a `sales_n_days` row. -/
def aggKey (a : SalesAgg) : String × String := (a.sku_id, a.city)

/-- The `(sku_id, city)` key of a base-table row. -/
def baseKey (b : BaseRow) : String × String := (b.sku_id, b.city)

/-- `sales_n_days`: windowed sales grouped by `(sku_id, city)`, summing
`sales_qty` and taking the first (non-null, as pandas `agg "first"` does)
`sku_description` of each group. -/
def salesNDays (sales : List SalesRow) (n_days : ℕ) : List SalesAgg :=
  let fs := windowFilter sales n_days
  let keys := (fs.map salesKey).dedup
  keys.map (fun k =>
    let grp := fs.filter (fun r => decide (salesKey r = k))
    { sku_id := k.1, city := k.2,
      sales_qty := (grp.map (fun r => r.sales_qty)).sum,
      sku_description := grp.findSome? (fun r => r.sku_description) })

/-- `pd.merge(inventory_df, sales_n_days, on=["sku_id","city"], how="outer")`:
each inventory row is paired with every `sales_n_days` row of equal key (or
with nothing when no key matches), and unmatched `sales_n_days` rows follow.
(pandas additionally sorts an outer merge by key; row order is not modelled.) -/
def mergePairs (inv : List InventoryRow) (sn : List SalesAgg) :
    List (Option InventoryRow × Option SalesAgg) :=
  (inv.flatMap (fun i =>
    let ms := sn.filter (fun a => decide (aggKey a = invKey i))
    if ms = [] then [(some i, none)] else ms.map (fun a => (some i, some a))))
  ++ ((sn.filter (fun a => decide (¬ ∃ i ∈ inv, aggKey a = invKey i))).map
      (fun a => ((none : Option InventoryRow), some a)))

/-- `Series.combine_first`: keep the first value unless it is null. -/
def combineFirst (x y : Option String) : Option String :=
  match x with
  | some v => some v
  | none => y

/-- One merged row turned into a base row: coalesced key columns,
`sku_description_inv.combine_first(sku_description_sales)`, and
`fillna(0)` on `inventory_units` and `sales_qty`. -/
def mkBase : Option InventoryRow × Option SalesAgg → BaseRow
  | (some i, so) =>
      { city := i.city, sku_id := i.sku_id,
        sku_description :=
          combineFirst i.sku_description (so.bind (fun a => a.sku_description)),
        inventory_units := i.inventory_units,
        sales_qty := (so.map (fun a => a.sales_qty)).getD 0 }
  | (none, some a) =>
      { city := a.city, sku_id := a.sku_id,
        sku_description := combineFirst none a.sku_description,
        inventory_units := 0, sales_qty := a.sales_qty }
  | (none, none) =>
      { city := "", sku_id := "", sku_description := none,
        inventory_units := 0, sales_qty := 0 }

/-- `create_doi_base(sales_df, inventory_df, n_days)` of `src/main.py`. -/
def create_doi_base (sales : List SalesRow) (inv : List InventoryRow)
    (n_days : ℕ) : List BaseRow :=
  (mergePairs inv (salesNDays sales n_days)).map mkBase

/-- The numeric expression of `calculate_doi` before flooring: the nested
`np.where` of `src/main.py`. -/
def doiRaw (inventory_units sales_qty : ℚ) (days : ℕ) : ℚ :=
  if inventory_units = 0 then 0
  else if sales_qty = 0 then inventory_units
  else inventory_units / (sales_qty / (days : ℚ))

/-- The per-row DOI value: `np.floor(...)` then `astype(int)` (the value under
the floor already being integral, the cast is the identity). -/
def doi (inventory_units sales_qty : ℚ) (days : ℕ) : ℤ :=
  ⌊doiRaw inventory_units sales_qty days⌋

/-- `calculate_doi(df, days)` applied to grouped rows. -/
def calculate_doi (rows : List ResultRow) (days : ℕ) : List ResultRow :=
  rows.map (fun r => { r with doi := doi r.inventory_units r.sales_qty days })

/-- A pandas `groupby` over base rows with a possibly null key, summing
`sales_qty` and `inventory_units`.  Rows whose key is null are dropped
(`dropna=True`, the pandas default). -/
def groupPairsAgg {K : Type} [DecidableEq K] (tagged : List (K × BaseRow)) :
    List (K × ℚ × ℚ) :=
  let keys := (tagged.map (fun p => p.1)).dedup
  keys.map (fun k =>
    let grp := (tagged.filter (fun p => decide (p.1 = k))).map (fun p => p.2)
    (k, (grp.map (fun r => r.sales_qty)).sum, (grp.map (fun r => r.inventory_units)).sum))

/-- Tag every row with its (possibly null) grouping key, dropping null keys. -/
def groupKeyAgg {K : Type} [DecidableEq K] (rows : List BaseRow)
    (key : BaseRow → Option K) : List (K × ℚ × ℚ) :=
  groupPairsAgg (rows.filterMap (fun r => (key r).map (fun k => (k, r))))

/-- Branch 1 of the priority chain: SKU and city both selected — filter to the
exact pair, group by `(sku_description, city)`, and apply `calculate_doi`. -/
def view_sku_city (base : List BaseRow) (days : ℕ) (sku city : String) :
    List ResultRow :=
  let temp := base.filter (fun r => decide (r.sku_description = some sku ∧ r.city = city))
  calculate_doi ((groupKeyAgg temp (fun r => r.sku_description.map (fun d => (d, r.city)))).map
    (fun p => { sku_description := some p.1.1, city := some p.1.2,
                sales_qty := p.2.1, inventory_units := p.2.2, doi := 0 })) days

/-- Branch 2: individual SKU across all cities. -/
def view_sku (base : List BaseRow) (days : ℕ) (sku : String) : List ResultRow :=
  let temp := base.filter (fun r => decide (r.sku_description = some sku))
  calculate_doi ((groupKeyAgg temp (fun r => r.sku_description.map (fun d => (d, r.city)))).map
    (fun p => { sku_description := some p.1.1, city := some p.1.2,
                sales_qty := p.2.1, inventory_units := p.2.2, doi := 0 })) days

/-- Branch 3: individual city across all SKUs (grouped by `(city,
sku_description)`). -/
def view_city (base : List BaseRow) (days : ℕ) (city : String) : List ResultRow :=
  let temp := base.filter (fun r => decide (r.city = city))
  calculate_doi ((groupKeyAgg temp (fun r => r.sku_description.map (fun d => (r.city, d)))).map
    (fun p => { sku_description := some p.1.2, city := some p.1.1,
                sales_qty := p.2.1, inventory_units := p.2.2, doi := 0 })) days

/-- Branch 4: pan-India, grouped by `sku_description` alone. -/
def view_pan_product (base : List BaseRow) (days : ℕ) : List ResultRow :=
  calculate_doi ((groupKeyAgg base (fun r => r.sku_description)).map
    (fun p => { sku_description := some p.1, city := none,
                sales_qty := p.2.1, inventory_units := p.2.2, doi := 0 })) days

/-- Branch 5: pan-India, grouped by `city` alone (the `city` key is never
null, so no row is dropped). -/
def view_pan_city (base : List BaseRow) (days : ℕ) : List ResultRow :=
  calculate_doi ((groupKeyAgg base (fun r => some r.city)).map
    (fun p => { sku_description := none, city := some p.1,
                sales_qty := p.2.1, inventory_units := p.2.2, doi := 0 })) days

/-- The priority-driven `result_df` chain of `src/main.py`: the first matching
branch wins, and with every filter at `"None"` the result stays the initial
empty frame. -/
def filter_result (base : List BaseRow) (days : ℕ)
    (sku city mode : String) : List ResultRow :=
  if sku ≠ "None" ∧ city ≠ "None" then view_sku_city base days sku city
  else if sku ≠ "None" then view_sku base days sku
  else if city ≠ "None" then view_city base days city
  else if mode = "Product Wise" then view_pan_product base days
  else if mode = "City Wise" then view_pan_city base days
  else []

/-- `sorted(base_df["sku_description"].dropna().unique())`: the individual-SKU
selection list. -/
def sku_list (base : List BaseRow) : List String :=
  ((base.filterMap (fun r => r.sku_description)).dedup).mergeSort (fun a b => decide (a ≤ b))

/-- Base rows whose `sku_description` is not null. -/
def dropNullDesc (base : List BaseRow) : List BaseRow :=
  base.filter (fun r => r.sku_description.isSome)

/-- The `(sku_id, city)` join key carried by a merged row (at least one side
of an outer-merge row is populated; the double-`none` default is
unreachable). -/
def pairKey : Option InventoryRow × Option SalesAgg → String × String
  | (some i, _) => invKey i
  | (none, some a) => aggKey a
  | (none, none) => ("", "")

/-- A week of sales for one key: dates `0..7` with `sales_qty = 1` each, so a
7-day window anchored at the max date `7` keeps dates `1..7`. -/
def sampleWeek : List SalesRow :=
  [⟨0, "Mumbai", "SKU1", some "W", 1⟩,
   ⟨1, "Mumbai", "SKU1", some "W", 1⟩,
   ⟨2, "Mumbai", "SKU1", some "W", 1⟩,
   ⟨3, "Mumbai", "SKU1", some "W", 1⟩,
   ⟨4, "Mumbai", "SKU1", some "W", 1⟩,
   ⟨5, "Mumbai", "SKU1", some "W", 1⟩,
   ⟨6, "Mumbai", "SKU1", some "W", 1⟩,
   ⟨7, "Mumbai", "SKU1", some "W", 1⟩]

/-! ## Theorems -/

lemma doi_floor_mul_div (u s d : ℕ) :
    ⌊(u : ℚ) / ((s : ℚ) / (d : ℚ))⌋ = ((u * d / s : ℕ) : ℤ) := by
  rw [div_div_eq_mul_div]
  have h1 : (u : ℚ) * (d : ℚ) = (((u * d : ℕ) : ℤ) : ℚ) := by push_cast; ring
  rw [h1]
  rw [Rat.floor_intCast_div_natCast]
  rw [Int.natCast_div]

/-- C1: the DOI function, applied row-wise, matches the reference definition:
`doi(u, s, d) = 0` when `u = 0`, otherwise `u` when `s = 0`, otherwise
`⌊u·d/s⌋`; and the result is a non-negative integer. -/
theorem calculate_doi_rowwise_spec (u s d : ℕ) (_hd : 0 < d) :
    (u = 0 → doi (u : ℚ) (s : ℚ) d = 0)
    ∧ (u ≠ 0 → s = 0 → doi (u : ℚ) (s : ℚ) d = (u : ℤ))
    ∧ (u ≠ 0 → s ≠ 0 → doi (u : ℚ) (s : ℚ) d = ((u * d / s : ℕ) : ℤ))
    ∧ 0 ≤ doi (u : ℚ) (s : ℚ) d := by
  have hbranches :
      (u = 0 → doi (u : ℚ) (s : ℚ) d = 0)
      ∧ (u ≠ 0 → s = 0 → doi (u : ℚ) (s : ℚ) d = (u : ℤ))
      ∧ (u ≠ 0 → s ≠ 0 → doi (u : ℚ) (s : ℚ) d = ((u * d / s : ℕ) : ℤ)) := by
    refine ⟨fun hu => ?_, fun hu hs => ?_, fun hu hs => ?_⟩
    · simp [doi, doiRaw, hu]
    · simp [doi, doiRaw, hu, hs, Int.floor_natCast]
    · have hu' : (u : ℚ) ≠ 0 := by exact_mod_cast hu
      have hs' : (s : ℚ) ≠ 0 := by exact_mod_cast hs
      simp only [doi, doiRaw, hu', hs', if_neg hu', if_neg hs']
      exact doi_floor_mul_div u s d
  refine ⟨hbranches.1, hbranches.2.1, hbranches.2.2, ?_⟩
  by_cases hu : u = 0
  · rw [hbranches.1 hu]
  · by_cases hs : s = 0
    · rw [hbranches.2.1 hu hs]; exact_mod_cast Nat.zero_le u
    · rw [hbranches.2.2 hu hs]; exact_mod_cast Nat.zero_le _

/-- Witness for C1 at the spec's own example: `doi(100, 30, 7) = 23`. -/
theorem calculate_doi_rowwise_spec_witness :
    0 < 7 ∧ doi (100 : ℚ) (30 : ℚ) 7 = 23 := by
  refine ⟨by decide, ?_⟩
  have h := (calculate_doi_rowwise_spec 100 30 7 (by decide)).2.2.1 (by decide) (by decide)
  norm_num at h
  exact h

/-- C7: city normalization returns the canonical name when the raw name has an
entry in the mapping and the raw name unchanged otherwise; in particular
`"Vizag Rural"` under the Sales mapping resolves to `"Visakhapatnam"` and
`"Timbuktu"` resolves to `"Timbuktu"`. -/
theorem normalize_city_spec (mapping : List (String × String)) (c canon : String) :
    (mapping.lookup c = some canon → normalize_city mapping c = canon)
    ∧ (mapping.lookup c = none → normalize_city mapping c = c)
    ∧ normalize_city SALES_CITY_MAPPING "Vizag Rural" = "Visakhapatnam"
    ∧ normalize_city SALES_CITY_MAPPING "Timbuktu" = "Timbuktu" := by
  refine ⟨fun h => ?_, fun h => ?_, by decide, by decide⟩
  · simp [normalize_city, h]
  · simp [normalize_city, h]

/-- Witness for C7: the `"Vizag Rural"` entry of the Sales mapping. -/
theorem normalize_city_spec_witness :
    SALES_CITY_MAPPING.lookup "Vizag Rural" = some "Visakhapatnam"
    ∧ normalize_city SALES_CITY_MAPPING "Vizag Rural" = "Visakhapatnam" :=
  ⟨by decide,
   (normalize_city_spec SALES_CITY_MAPPING "Vizag Rural" "Visakhapatnam").1 (by decide)⟩

/-- C9: with all three selections at `"None"` the filter engine returns the
empty result (the untouched initial `result_df`), not an error and not the
unfiltered base table. -/
theorem filter_result_no_selection (base : List BaseRow) (days : ℕ) :
    filter_result base days "None" "None" "None" = [] := by
  simp [filter_result]

/-- C4: whenever a SKU and a city are both selected, the priority chain
produces the rule-1 view, whatever `pan_mode` holds. -/
theorem filter_result_priority (base : List BaseRow) (days : ℕ)
    (sku city mode : String) (hs : sku ≠ "None") (hc : city ≠ "None") :
    filter_result base days sku city mode = view_sku_city base days sku city := by
  unfold filter_result
  rw [if_pos ⟨hs, hc⟩]

/-- Witness for C4: one base row, SKU+city selected and `pan_mode` also set to
`"Product Wise"`; the rule-1 view is produced, with the DOI of the spec's
end-to-end example. -/
theorem filter_result_priority_witness :
    filter_result [⟨"Mumbai", "SKU1", some "Widget-A", 100, 30⟩] 7
        "Widget-A" "Mumbai" "Product Wise"
      = view_sku_city [⟨"Mumbai", "SKU1", some "Widget-A", 100, 30⟩] 7 "Widget-A" "Mumbai"
    ∧ view_sku_city [⟨"Mumbai", "SKU1", some "Widget-A", 100, 30⟩] 7 "Widget-A" "Mumbai"
      = [⟨some "Widget-A", some "Mumbai", 30, 100, 23⟩] :=
  ⟨filter_result_priority _ 7 _ _ _ (by decide) (by decide), by
    simp [view_sku_city, groupKeyAgg, groupPairsAgg, calculate_doi, doi, doiRaw]
    norm_num⟩

lemma combineFirst_none_right (x : Option String) : combineFirst x none = x := by
  cases x <;> rfl

lemma mergePairs_nil_right (inv : List InventoryRow) :
    mergePairs inv [] = inv.map (fun i => (some i, (none : Option SalesAgg))) := by
  unfold mergePairs
  induction inv with
  | nil => rfl
  | cons i t ih =>
      simpa [List.flatMap_cons] using ih

lemma salesNDays_nil (n : ℕ) : salesNDays [] n = [] := by
  simp [salesNDays, windowFilter, maxDate]

/-- C5 (amended): with an empty normalized sales table the builder does not
fail; the `NaT` max date makes the window filter drop everything and the outer
merge returns exactly the inventory rows, each with `sales_qty = 0`. -/
theorem create_doi_base_empty_sales (inv : List InventoryRow) (n : ℕ) :
    create_doi_base [] inv n = inv.map (fun i =>
      { city := i.city, sku_id := i.sku_id, sku_description := i.sku_description,
        inventory_units := i.inventory_units, sales_qty := 0 }) := by
  unfold create_doi_base
  rw [salesNDays_nil, mergePairs_nil_right, List.map_map]
  refine List.map_congr_left (fun i _ => ?_)
  show mkBase (some i, none) = _
  simp [mkBase, combineFirst_none_right]

/-- Counterexample for C5: an empty sales table with one inventory row yields
a non-empty, inventory-only base table instead of an `EmptyDataError`
failure. -/
theorem create_doi_base_empty_sales_cex :
    create_doi_base [] [⟨"Mumbai", "SKU1", some "Widget-A", 100⟩] 7
      = [⟨"Mumbai", "SKU1", some "Widget-A", 100, 0⟩]
    ∧ create_doi_base [] [⟨"Mumbai", "SKU1", some "Widget-A", 100⟩] 7 ≠ [] := by
  have h1 : create_doi_base [] [⟨"Mumbai", "SKU1", some "Widget-A", 100⟩] 7
      = [⟨"Mumbai", "SKU1", some "Widget-A", 100, 0⟩] := rfl
  refine ⟨h1, ?_⟩
  rw [h1]
  simp

lemma nodup_map_key_of_keys {α κ : Type} [DecidableEq κ] (keys : List κ)
    (mk : κ → α) (keyfn : α → κ) (h : ∀ k, keyfn (mk k) = k) (hkeys : keys.Nodup) :
    ((keys.map mk).map keyfn).Nodup := by
  rw [List.map_map]
  have heq : keys.map (keyfn ∘ mk) = keys := by
    have : keys.map (keyfn ∘ mk) = keys.map id :=
      List.map_congr_left (fun a _ => h a)
    simpa using this
  rw [heq]
  exact hkeys

/-- C6 (amended): the normalized sales table is unique per `(date, city,
sku_id, sku_description)` and the normalized inventory table is unique per
`(city, sku_id, sku_description)` — the description is part of each groupby
key, so uniqueness per the shorter keys holds only when raw rows sharing a
key agree on the description. -/
theorem preprocess_unique_extended_key (rawS : List RawSalesRow)
    (rawI : List RawInventoryRow) :
    ((preprocess_sales rawS).map
      (fun r => (r.date, r.city, r.sku_id, r.sku_description))).Nodup
    ∧ ((preprocess_inventory rawI).map
      (fun r => (r.city, r.sku_id, r.sku_description))).Nodup := by
  constructor
  · unfold preprocess_sales
    apply nodup_map_key_of_keys
    · rintro ⟨a, b, c, d⟩; rfl
    · exact List.nodup_dedup _
  · unfold preprocess_inventory
    apply nodup_map_key_of_keys
    · rintro ⟨a, b, c⟩; rfl
    · exact List.nodup_dedup _

/-- Counterexample for C6: two raw rows sharing the claimed key but carrying
different descriptions produce two normalized rows for that key, in both the
inventory and the sales table. -/
theorem preprocess_unique_key_cex :
    ((preprocess_inventory
        [⟨"Mumbai", "SKU1", some "Widget-A", 1⟩,
         ⟨"Mumbai", "SKU1", some "Widget-B", 2⟩]).countP
      (fun r => decide ((r.city, r.sku_id) = ("Mumbai", "SKU1")))) = 2
    ∧ ((preprocess_sales
        [⟨0, "Mumbai", "SKU1", some "Widget-A", 1⟩,
         ⟨0, "Mumbai", "SKU1", some "Widget-B", 2⟩]).countP
      (fun r => decide ((r.date, r.city, r.sku_id) = (0, "Mumbai", "SKU1")))) = 2 := by
  constructor <;> decide

/-- C3: with non-empty sales, the window is the closed interval
`[max_date − (N−1), max_date]` anchored at the latest date present in the
data; it spans exactly `N` calendar days, and every aggregated `sales_qty` of
the windowed base is the sum over exactly the rows of its key dated inside
that interval. -/
theorem window_correctness (sales : List SalesRow) (n : ℕ) (hne : sales ≠ []) :
    ∃ m, maxDate sales = some m
      ∧ (∀ r, r ∈ windowFilter sales n ↔
          (r ∈ sales ∧ m - ((n : ℤ) - 1) ≤ r.date ∧ r.date ≤ m))
      ∧ (Finset.Icc (m - ((n : ℤ) - 1)) m).card = n
      ∧ (∀ a ∈ salesNDays sales n,
          a.sales_qty = ((sales.filter (fun r =>
            decide (salesKey r = (a.sku_id, a.city)
              ∧ m - ((n : ℤ) - 1) ≤ r.date ∧ r.date ≤ m))).map
            (fun r => r.sales_qty)).sum) := by
  obtain ⟨m, hm⟩ : ∃ m, maxDate sales = some m := by
    cases hmx : maxDate sales with
    | none =>
        exfalso
        have hmap : sales.map (fun r => r.date) = [] := by
          simpa [maxDate, List.max?_eq_none_iff] using hmx
        exact hne (by simpa using hmap)
    | some m => exact ⟨m, rfl⟩
  have hfs : windowFilter sales n
      = sales.filter (fun r => decide (m - ((n : ℤ) - 1) ≤ r.date ∧ r.date ≤ m)) := by
    simp only [windowFilter, hm]
  refine ⟨m, hm, ?_, ?_, ?_⟩
  · intro r
    rw [hfs]
    simp [List.mem_filter]
  · rw [Int.card_Icc]
    omega
  · intro a ha
    simp only [salesNDays, List.mem_map] at ha
    obtain ⟨k, hk, rfl⟩ := ha
    have hlist : (windowFilter sales n).filter (fun r => decide (salesKey r = k))
        = sales.filter (fun r =>
            decide (salesKey r = k ∧ m - ((n : ℤ) - 1) ≤ r.date ∧ r.date ≤ m)) := by
      rw [hfs, List.filter_filter]
      refine List.filter_congr (fun r _ => ?_)
      by_cases h1 : salesKey r = k
        <;> by_cases h2 : m - ((n : ℤ) - 1) ≤ r.date ∧ r.date ≤ m
        <;> simp [h1, h2]
    simp only [Prod.mk.eta]
    rw [hlist]

/-- Witness for C3 on `sampleWeek` with `N = 7`: the sale dated `0` (that is
`D − 7`) is excluded, dates `1..7` are kept, and the key's windowed sum is
`7`, not `8`. -/
theorem window_correctness_witness :
    sampleWeek ≠ []
    ∧ (∃ m, maxDate sampleWeek = some m
      ∧ (∀ r, r ∈ windowFilter sampleWeek 7 ↔
          (r ∈ sampleWeek ∧ m - ((7 : ℤ) - 1) ≤ r.date ∧ r.date ≤ m))
      ∧ (Finset.Icc (m - ((7 : ℤ) - 1)) m).card = 7
      ∧ (∀ a ∈ salesNDays sampleWeek 7,
          a.sales_qty = ((sampleWeek.filter (fun r =>
            decide (salesKey r = (a.sku_id, a.city)
              ∧ m - ((7 : ℤ) - 1) ≤ r.date ∧ r.date ≤ m))).map
            (fun r => r.sales_qty)).sum))
    ∧ (windowFilter sampleWeek 7).map (fun r => r.date) = [1, 2, 3, 4, 5, 6, 7]
    ∧ (salesNDays sampleWeek 7).map (fun a => a.sales_qty) = [7] := by
  refine ⟨by simp [sampleWeek], window_correctness sampleWeek 7 (by simp [sampleWeek]),
    by decide, ?_⟩
  simp [sampleWeek, salesNDays, windowFilter, maxDate, salesKey]
  norm_num

lemma filterMap_filter_eq {α β : Type} (q : α → Bool) (f : α → Option β)
    (h : ∀ r, q r = false → f r = none) (l : List α) :
    (l.filter q).filterMap f = l.filterMap f := by
  induction l with
  | nil => rfl
  | cons a t ih =>
      cases hq : q a with
      | true => simp [List.filter_cons, hq, List.filterMap_cons, ih]
      | false => simp [List.filter_cons, hq, List.filterMap_cons, h a hq, ih]

lemma groupKeyAgg_filter_isSome {K : Type} [DecidableEq K] (l : List BaseRow)
    (key : BaseRow → Option K) (h : ∀ r, r.sku_description = none → key r = none) :
    groupKeyAgg (l.filter (fun r => r.sku_description.isSome)) key = groupKeyAgg l key := by
  unfold groupKeyAgg
  congr 1
  apply filterMap_filter_eq
  intro r hq
  have hnone : r.sku_description = none := by
    cases hd : r.sku_description with
    | none => rfl
    | some d => rw [hd] at hq; simp at hq
  rw [h r hnone]
  rfl

lemma view_body_dropNullDesc {K : Type} [DecidableEq K] (base : List BaseRow)
    (p : BaseRow → Bool) (key : BaseRow → Option K) (g : K × ℚ × ℚ → ResultRow)
    (days : ℕ) (h : ∀ r, r.sku_description = none → key r = none) :
    calculate_doi ((groupKeyAgg ((dropNullDesc base).filter p) key).map g) days
      = calculate_doi ((groupKeyAgg (base.filter p) key).map g) days := by
  unfold dropNullDesc
  rw [List.filter_comm]
  rw [groupKeyAgg_filter_isSome (base.filter p) key h]

/-- C10: a base row with a null `sku_description` is invisible to every view
that groups on the description (rules 1–4) and to the SKU selection list —
each of those is unchanged when null-description rows are removed — while the
City-Wise view does count such a row, as the closing concrete conjuncts show
(a lone null-description row yields a City-Wise total but an empty
Product-Wise view). -/
theorem null_desc_row_exclusion (base : List BaseRow) (days : ℕ) (sku city : String) :
    view_sku_city base days sku city = view_sku_city (dropNullDesc base) days sku city
    ∧ view_sku base days sku = view_sku (dropNullDesc base) days sku
    ∧ view_city base days city = view_city (dropNullDesc base) days city
    ∧ view_pan_product base days = view_pan_product (dropNullDesc base) days
    ∧ sku_list base = sku_list (dropNullDesc base)
    ∧ view_pan_city [⟨"Mumbai", "SKU1", none, 5, 10⟩] 7
        = [⟨none, some "Mumbai", 10, 5, 3⟩]
    ∧ view_pan_product [⟨"Mumbai", "SKU1", none, 5, 10⟩] 7 = [] := by
  refine ⟨?_, ?_, ?_, ?_, ?_, ?_, ?_⟩
  · symm
    simp only [view_sku_city]
    exact view_body_dropNullDesc base _ _ _ days (fun r hr => by rw [hr]; rfl)
  · symm
    simp only [view_sku]
    exact view_body_dropNullDesc base _ _ _ days (fun r hr => by rw [hr]; rfl)
  · symm
    simp only [view_city]
    exact view_body_dropNullDesc base _ _ _ days (fun r hr => by rw [hr]; rfl)
  · symm
    simp only [view_pan_product, dropNullDesc]
    rw [groupKeyAgg_filter_isSome base _ (fun r hr => hr)]
  · symm
    simp only [sku_list, dropNullDesc]
    rw [filterMap_filter_eq _ _ (fun r hq => by
      cases hd : r.sku_description with
      | none => rfl
      | some d => rw [hd] at hq; simp at hq) base]
  · simp [view_pan_city, groupKeyAgg, groupPairsAgg, calculate_doi, doi, doiRaw]
    norm_num
  · simp [view_pan_product, groupKeyAgg, groupPairsAgg, calculate_doi]

lemma filter_eq_find_toList {α β : Type} [DecidableEq β] (f : α → β) (k : β)
    (l : List α) (h : (l.map f).Nodup) :
    l.filter (fun y => decide (f y = k)) = (l.find? (fun y => decide (f y = k))).toList := by
  induction l with
  | nil => rfl
  | cons a t ih =>
      rw [List.map_cons, List.nodup_cons] at h
      by_cases ha : f a = k
      · rw [List.filter_cons_of_pos (by simpa using ha),
          List.find?_cons_of_pos _ (by simpa using ha)]
        have ht : t.filter (fun y => decide (f y = k)) = [] := by
          refine List.filter_eq_nil_iff.mpr (fun y hy => ?_)
          simp only [decide_eq_true_eq]
          intro hfy
          exact h.1 (by rw [ha, ← hfy]; exact List.mem_map_of_mem f hy)
        rw [ht]
        rfl
      · rw [List.filter_cons_of_neg (by simpa using ha),
          List.find?_cons_of_neg _ (by simpa using ha)]
        exact ih h.2

lemma find?_key_of_mem {α β : Type} [DecidableEq β] (f : α → β) (l : List α)
    (h : (l.map f).Nodup) (x : α) (hx : x ∈ l) :
    l.find? (fun y => decide (f y = f x)) = some x := by
  have hmem : x ∈ l.filter (fun y => decide (f y = f x)) :=
    List.mem_filter.mpr ⟨hx, by simp⟩
  rw [filter_eq_find_toList f (f x) l h] at hmem
  cases hf : l.find? (fun y => decide (f y = f x)) with
  | none => rw [hf] at hmem; simp at hmem
  | some z => rw [hf] at hmem; simp at hmem; rw [hmem]

lemma countP_key_of_mem {α β : Type} [DecidableEq β] (f : α → β) (l : List α)
    (h : (l.map f).Nodup) (k : β) (hk : k ∈ l.map f) :
    l.countP (fun y => decide (f y = k)) = 1 := by
  obtain ⟨x, hx, rfl⟩ := List.mem_map.mp hk
  rw [List.countP_eq_length_filter, filter_eq_find_toList f (f x) l h,
    find?_key_of_mem f l h x hx]
  rfl

lemma countP_key_of_not_mem {α β : Type} [DecidableEq β] (f : α → β) (l : List α)
    (k : β) (hk : k ∉ l.map f) :
    l.countP (fun y => decide (f y = k)) = 0 := by
  refine List.countP_eq_zero.mpr (fun y hy => ?_)
  simp only [decide_eq_true_eq]
  intro hfy
  exact hk (by rw [← hfy]; exact List.mem_map_of_mem f hy)

lemma salesNDays_keys_nodup (sales : List SalesRow) (n : ℕ) :
    ((salesNDays sales n).map aggKey).Nodup := by
  unfold salesNDays
  apply nodup_map_key_of_keys
  · rintro ⟨k1, k2⟩; rfl
  · exact List.nodup_dedup _

lemma baseKey_mkBase (p : Option InventoryRow × Option SalesAgg) :
    baseKey (mkBase p) = pairKey p := by
  rcases p with ⟨oi, oa⟩
  cases oi <;> cases oa <;> rfl

lemma mergePairs_eq (inv : List InventoryRow) (sn : List SalesAgg)
    (hsn : (sn.map aggKey).Nodup) :
    mergePairs inv sn
      = inv.map (fun i => (some i, sn.find? (fun a => decide (aggKey a = invKey i))))
        ++ ((sn.filter (fun a => decide (¬ ∃ i ∈ inv, aggKey a = invKey i))).map
            (fun a => ((none : Option InventoryRow), some a))) := by
  unfold mergePairs
  congr 1
  induction inv with
  | nil => rfl
  | cons i t ih =>
      rw [List.flatMap_cons, List.map_cons, ih]
      rw [filter_eq_find_toList aggKey (invKey i) sn hsn]
      cases hf : sn.find? (fun a => decide (aggKey a = invKey i)) with
      | none => simp
      | some a => simp

lemma create_doi_base_cases (sales : List SalesRow) (inv : List InventoryRow)
    (n : ℕ) (r : BaseRow) (hr : r ∈ create_doi_base sales inv n) :
    (∃ i ∈ inv, r = mkBase (some i,
        (salesNDays sales n).find? (fun a => decide (aggKey a = invKey i))))
    ∨ (∃ a ∈ salesNDays sales n,
        (¬ ∃ i ∈ inv, aggKey a = invKey i) ∧ r = mkBase (none, some a)) := by
  unfold create_doi_base at hr
  rw [mergePairs_eq inv (salesNDays sales n) (salesNDays_keys_nodup sales n)] at hr
  rw [List.map_append, List.mem_append] at hr
  cases hr with
  | inl h =>
      rw [List.map_map, List.mem_map] at h
      obtain ⟨i, hi, rfl⟩ := h
      exact Or.inl ⟨i, hi, rfl⟩
  | inr h =>
      rw [List.map_map, List.mem_map] at h
      obtain ⟨a, haf, rfl⟩ := h
      rw [List.mem_filter] at haf
      exact Or.inr ⟨a, haf.1, by simpa using haf.2, rfl⟩

lemma countP_create_doi_base (sales : List SalesRow) (inv : List InventoryRow)
    (n : ℕ) (k : String × String) :
    (create_doi_base sales inv n).countP (fun r => decide (baseKey r = k))
      = inv.countP (fun i => decide (invKey i = k))
        + ((salesNDays sales n).filter
            (fun a => decide (¬ ∃ i ∈ inv, aggKey a = invKey i))).countP
            (fun a => decide (aggKey a = k)) := by
  unfold create_doi_base
  rw [List.countP_map,
    mergePairs_eq inv (salesNDays sales n) (salesNDays_keys_nodup sales n),
    List.countP_append, List.countP_map, List.countP_map]
  rfl

/-- C2 (amended): provided the inventory table carries at most one row per
`(sku_id, city)` key, every key present in the *windowed* sales aggregate or
in the inventory table owns exactly one base row, keys present in neither own
none, an inventory-only key gets `sales_qty = 0`, and a windowed-sales-only
key gets `inventory_units = 0`. -/
theorem create_doi_base_union_key (sales : List SalesRow) (inv : List InventoryRow)
    (n : ℕ) (k : String × String) (hinv : (inv.map invKey).Nodup) :
    ((k ∈ (salesNDays sales n).map aggKey ∨ k ∈ inv.map invKey) →
      (create_doi_base sales inv n).countP (fun r => decide (baseKey r = k)) = 1)
    ∧ ((k ∉ (salesNDays sales n).map aggKey ∧ k ∉ inv.map invKey) →
      (create_doi_base sales inv n).countP (fun r => decide (baseKey r = k)) = 0)
    ∧ ((k ∈ inv.map invKey ∧ k ∉ (salesNDays sales n).map aggKey) →
      ∀ r ∈ create_doi_base sales inv n, baseKey r = k → r.sales_qty = 0)
    ∧ ((k ∈ (salesNDays sales n).map aggKey ∧ k ∉ inv.map invKey) →
      ∀ r ∈ create_doi_base sales inv n, baseKey r = k → r.inventory_units = 0) := by
  have hsn := salesNDays_keys_nodup sales n
  refine ⟨?_, ?_, ?_, ?_⟩
  · intro hk
    rw [countP_create_doi_base]
    by_cases hik : k ∈ inv.map invKey
    · rw [countP_key_of_mem invKey inv hinv k hik]
      have h2 : ((salesNDays sales n).filter
          (fun a => decide (¬ ∃ i ∈ inv, aggKey a = invKey i))).countP
          (fun a => decide (aggKey a = k)) = 0 := by
        refine List.countP_eq_zero.mpr (fun a haf => ?_)
        rw [List.mem_filter] at haf
        simp only [decide_eq_true_eq]
        intro hak
        obtain ⟨i, hi, hik'⟩ := List.mem_map.mp hik
        have hno : ¬ ∃ i ∈ inv, aggKey a = invKey i := by simpa using haf.2
        exact hno ⟨i, hi, by rw [hak, hik']⟩
      rw [h2]
    · have hks : k ∈ (salesNDays sales n).map aggKey := hk.resolve_right hik
      rw [countP_key_of_not_mem invKey inv k hik]
      rw [List.countP_filter]
      have h2 : (salesNDays sales n).countP
          (fun a => decide (aggKey a = k) && decide (¬ ∃ i ∈ inv, aggKey a = invKey i))
          = (salesNDays sales n).countP (fun a => decide (aggKey a = k)) := by
        refine List.countP_congr (fun a _ => ?_)
        simp only [Bool.and_eq_true, decide_eq_true_eq]
        constructor
        · exact fun h => h.1
        · intro hak
          refine ⟨hak, fun hex => ?_⟩
          obtain ⟨i, hi, hai⟩ := hex
          exact hik (by rw [← hak, hai]; exact List.mem_map_of_mem invKey hi)
      rw [h2, countP_key_of_mem aggKey (salesNDays sales n) hsn k hks]
  · rintro ⟨hks, hik⟩
    rw [countP_create_doi_base, countP_key_of_not_mem invKey inv k hik,
      List.countP_filter]
    have h2 : (salesNDays sales n).countP
        (fun a => decide (aggKey a = k) && decide (¬ ∃ i ∈ inv, aggKey a = invKey i))
        = 0 := by
      refine List.countP_eq_zero.mpr (fun a ha => ?_)
      simp only [Bool.and_eq_true, decide_eq_true_eq, not_and]
      intro hak
      exact absurd (by rw [← hak]; exact List.mem_map_of_mem aggKey ha) hks
    rw [h2]
  · rintro ⟨hik, hks⟩ r hr hkey
    cases create_doi_base_cases sales inv n r hr with
    | inl h =>
        obtain ⟨i, hi, rfl⟩ := h
        have hkinv : invKey i = k := by
          rw [← hkey, baseKey_mkBase]
          rfl
        have hfind : (salesNDays sales n).find?
            (fun a => decide (aggKey a = invKey i)) = none := by
          refine List.find?_eq_none.mpr (fun a ha => ?_)
          simp only [decide_eq_true_eq]
          intro hak
          exact hks (by rw [← hkinv, ← hak]; exact List.mem_map_of_mem aggKey ha)
        rw [hfind]
        rfl
    | inr h =>
        obtain ⟨a, ha, hna, rfl⟩ := h
        have : aggKey a = k := by
          rw [← hkey, baseKey_mkBase]
          rfl
        exact absurd (by rw [← this]; exact List.mem_map_of_mem aggKey ha) hks
  · rintro ⟨hks, hik⟩ r hr hkey
    cases create_doi_base_cases sales inv n r hr with
    | inl h =>
        obtain ⟨i, hi, rfl⟩ := h
        have hkinv : invKey i = k := by
          rw [← hkey, baseKey_mkBase]
          rfl
        exact absurd (by rw [← hkinv]; exact List.mem_map_of_mem invKey hi) hik
    | inr h =>
        obtain ⟨a, ha, hna, rfl⟩ := h
        rfl

/-- Witness for C2 at a concrete input: one in-window sales row whose key is
absent from the one-row inventory table owns exactly one base row. -/
theorem create_doi_base_union_key_witness :
    (([⟨"Delhi", "SKU2", some "X", 50⟩] : List InventoryRow).map invKey).Nodup
    ∧ (create_doi_base [⟨0, "Mumbai", "SKU1", some "W", 30⟩]
        [⟨"Delhi", "SKU2", some "X", 50⟩] 7).countP
        (fun r => decide (baseKey r = ("SKU1", "Mumbai"))) = 1 := by
  refine ⟨by decide,
    (create_doi_base_union_key [⟨0, "Mumbai", "SKU1", some "W", 30⟩]
      [⟨"Delhi", "SKU2", some "X", 50⟩] 7 ("SKU1", "Mumbai") (by decide)).1
    (Or.inl ?_)⟩
  decide

/-- Counterexample for C2 as stated: a normalized-sales key dated outside the
window owns no base row at all (an omission), and an inventory table with two
rows for one `(sku_id, city)` key — producible by preprocessing, per C6 —
yields two base rows for that key (a duplicate). -/
theorem create_doi_base_union_key_cex :
    (("SKU-A", "Mumbai") ∈
        ([⟨0, "Mumbai", "SKU-A", some "A", 5⟩,
          ⟨100, "Delhi", "SKU-B", some "B", 3⟩] : List SalesRow).map salesKey
      ∧ (create_doi_base
          [⟨0, "Mumbai", "SKU-A", some "A", 5⟩,
           ⟨100, "Delhi", "SKU-B", some "B", 3⟩] [] 7).countP
          (fun r => decide (baseKey r = ("SKU-A", "Mumbai"))) = 0)
    ∧ (create_doi_base []
        [⟨"Mumbai", "SKU1", some "Widget-A", 1⟩,
         ⟨"Mumbai", "SKU1", some "Widget-B", 2⟩] 7).countP
        (fun r => decide (baseKey r = ("SKU1", "Mumbai"))) = 2 := by
  refine ⟨⟨by decide, by decide⟩, by decide⟩

/-- C8: on every base row the resolved `sku_description` is
`combine_first(inventory-side, sales-side)` — the inventory-side description
when one is present, otherwise the sales-side one, otherwise null — and every
key present in either input keeps its row regardless of the descriptions. -/
theorem create_doi_base_desc_resolution (sales : List SalesRow)
    (inv : List InventoryRow) (n : ℕ) (hinv : (inv.map invKey).Nodup) :
    (∀ r ∈ create_doi_base sales inv n,
      r.sku_description = combineFirst
        ((inv.find? (fun i => decide (invKey i = baseKey r))).bind
          (fun i => i.sku_description))
        (((salesNDays sales n).find? (fun a => decide (aggKey a = baseKey r))).bind
          (fun a => a.sku_description)))
    ∧ (∀ k, (k ∈ inv.map invKey ∨ k ∈ (salesNDays sales n).map aggKey) →
        ∃ r ∈ create_doi_base sales inv n, baseKey r = k) := by
  have hsn := salesNDays_keys_nodup sales n
  constructor
  · intro r hr
    cases create_doi_base_cases sales inv n r hr with
    | inl h =>
        obtain ⟨i, hi, rfl⟩ := h
        have hbk : baseKey (mkBase (some i,
            (salesNDays sales n).find? (fun a => decide (aggKey a = invKey i))))
            = invKey i := by
          rw [baseKey_mkBase]; rfl
        rw [hbk, find?_key_of_mem invKey inv hinv i hi]
        rfl
    | inr h =>
        obtain ⟨a, ha, hna, rfl⟩ := h
        have hbk : baseKey (mkBase (none, some a)) = aggKey a := by
          rw [baseKey_mkBase]; rfl
        have hfi : inv.find? (fun i => decide (invKey i = baseKey (mkBase (none, some a))))
            = none := by
          refine List.find?_eq_none.mpr (fun i hi => ?_)
          simp only [decide_eq_true_eq]
          intro hik
          exact hna ⟨i, hi, by rw [hbk] at hik; exact hik.symm⟩
        rw [hfi, hbk, find?_key_of_mem aggKey (salesNDays sales n) hsn a ha]
        rfl
  · intro k hk
    by_cases hik : k ∈ inv.map invKey
    · obtain ⟨i, hi, rfl⟩ := List.mem_map.mp hik
      refine ⟨mkBase (some i,
        (salesNDays sales n).find? (fun a => decide (aggKey a = invKey i))), ?_, ?_⟩
      · unfold create_doi_base
        rw [mergePairs_eq inv (salesNDays sales n) hsn, List.map_append,
          List.mem_append]
        exact Or.inl (List.mem_map_of_mem _ (List.mem_map_of_mem _ hi))
      · rw [baseKey_mkBase]; rfl
    · have hks : k ∈ (salesNDays sales n).map aggKey := hk.resolve_left hik
      obtain ⟨a, ha, rfl⟩ := List.mem_map.mp hks
      refine ⟨mkBase (none, some a), ?_, ?_⟩
      · unfold create_doi_base
        rw [mergePairs_eq inv (salesNDays sales n) hsn, List.map_append,
          List.mem_append]
        refine Or.inr (List.mem_map_of_mem _ (List.mem_map_of_mem _ ?_))
        refine List.mem_filter.mpr ⟨ha, ?_⟩
        simp only [decide_eq_true_eq]
        intro hex
        obtain ⟨i, hi, hai⟩ := hex
        exact hik (by rw [hai]; exact List.mem_map_of_mem invKey hi)
      · rw [baseKey_mkBase]; rfl
  /- the two `rfl`s above discharge the `combineFirst` shapes definitionally:
  `mkBase (some i, so)` carries `combineFirst i.sku_description (so.bind ...)`
  and `mkBase (none, some a)` carries `combineFirst none a.sku_description`. -/

/-- Witness for C8: the same key on both sides with differing descriptions —
the inventory-side `"IDesc"` wins over the sales-side `"SDesc"`. -/
theorem create_doi_base_desc_resolution_witness :
    (([⟨"Mumbai", "SKU1", some "IDesc", 100⟩] : List InventoryRow).map invKey).Nodup
    ∧ (∀ r ∈ create_doi_base [⟨0, "Mumbai", "SKU1", some "SDesc", 30⟩]
        [⟨"Mumbai", "SKU1", some "IDesc", 100⟩] 7,
      r.sku_description = combineFirst
        ((([⟨"Mumbai", "SKU1", some "IDesc", 100⟩] : List InventoryRow).find?
            (fun i => decide (invKey i = baseKey r))).bind
          (fun i => i.sku_description))
        (((salesNDays [⟨0, "Mumbai", "SKU1", some "SDesc", 30⟩] 7).find?
            (fun a => decide (aggKey a = baseKey r))).bind
          (fun a => a.sku_description)))
    ∧ (create_doi_base [⟨0, "Mumbai", "SKU1", some "SDesc", 30⟩]
        [⟨"Mumbai", "SKU1", some "IDesc", 100⟩] 7).map
        (fun r => r.sku_description) = [some "IDesc"] :=
  ⟨by decide,
   (create_doi_base_desc_resolution [⟨0, "Mumbai", "SKU1", some "SDesc", 30⟩]
      [⟨"Mumbai", "SKU1", some "IDesc", 100⟩] 7 (by decide)).1,
   by decide⟩

end DOI


